import Mathlib

/-!
Shallow embedding of the MetaKeep wagmi connector
(`src/connectors/metaKeep.ts` of the repository).

The connector is a closure over two mutable variables (`provider`,
`providerPromise`) together with the listener registrations it performs on
the ethers `Web3Provider`, the wagmi `config.storage` key
`metaKeep.disconnected`, the wagmi `config.emitter`, and two `localStorage`
keys.  We embed the whole mutable footprint as an explicit state record
`AState` and every connector operation as a function
`... → AState → result × AState` (the result is `Except JsError α` when the
underlying `async` function can reject).

Two semantic points of JavaScript that the embedding keeps faithfully,
because the listener bookkeeping depends on them:

* `this.m.bind(this)` evaluates to a *fresh* function object on every
  evaluation; two distinct evaluations are never `===`-equal, and ethers'
  `BaseProvider.removeListener` removes a registration only when the passed
  function is `===`-identical to the registered one (and removes only the
  first match).  We model a bound listener as `Listener.bound m stamp`
  where `stamp` is drawn from a per-adapter counter (`bindCtr`) that every
  `.bind(this)` evaluation increments, so distinct evaluations are never
  equal, exactly as in JavaScript.

* A bare method reference such as `this.onChainChanged` (no `.bind`)
  denotes the same function object on every access; we model it as
  `Listener.plain m`, equal to itself across calls.

External collaborators (the MetaKeep SDK, the ethers signer, wagmi
storage/emitter internals) are modelled as an oracle record `Env` holding
the outcome of each external call; the adapter's own code is translated
line by line.
-/

namespace MetaKeepConn

/-- Provider event names used by the connector (`connect`, `accountsChanged`,
`chainChanged`, `disconnect`). -/
inductive PEvent
  | connect
  | accountsChanged
  | chainChanged
  | disconnect
  deriving DecidableEq, Repr

/-- The four connector methods that get registered as provider listeners. -/
inductive MethodRef
  | onConnect
  | onAccountsChanged
  | onChainChanged
  | onDisconnect
  deriving DecidableEq, Repr

/-- A listener function value.  `bound m k` is the result of the `k`-th
evaluation of `this.m.bind(this)` in the adapter's lifetime (fresh function
identity each time); `plain m` is the bare method reference `this.m`
(stable identity). -/
inductive Listener
  | bound (m : MethodRef) (stamp : ℕ)
  | plain (m : MethodRef)
  deriving DecidableEq, Repr

/-- An RPC-style error object carrying a numeric `code`, as inspected by the
connector's catch blocks (`(err as RpcError).code`). -/
structure RpcErr where
  code : Int
  deriving DecidableEq, Repr

/-- Errors the embedded operations can reject with.  The constructors mirror
the error values thrown in `metaKeep.ts`: a plain `Error(msg)`, a re-thrown
provider `RpcError`, a JavaScript `TypeError` from dereferencing an absent
provider, viem's `ChainNotConfiguredError`, and the viem wrapper classes
`UserRejectedRequestError`, `ResourceUnavailableRpcError`,
`SwitchChainError` (each wrapping its cause). -/
inductive JsError
  | error (msg : String)
  | rpcError (e : RpcErr)
  | typeError (msg : String)
  | chainNotConfigured
  | userRejectedRequest (cause : JsError)
  | resourceUnavailableRpc (cause : JsError)
  | switchChainError (cause : JsError)
  deriving DecidableEq, Repr

/-- The numeric `code` property read off a thrown value by the connector's
catch blocks.  viem assigns code 4001 to `UserRejectedRequestError`,
-32002 to `ResourceUnavailableRpcError` and 4902 to `SwitchChainError`;
plain `Error`/`TypeError`/`ChainNotConfiguredError` have no numeric code. -/
def JsError.code : JsError → Option Int
  | .error _ => none
  | .rpcError e => some e.code
  | .typeError _ => none
  | .chainNotConfigured => none
  | .userRejectedRequest _ => some 4001
  | .resourceUnavailableRpc _ => some (-32002)
  | .switchChainError _ => some 4902

/-- Events emitted on the wagmi `config.emitter`: `connect` with accounts
and chain id, `change` with an accounts payload or a chainId payload, and
`disconnect`. -/
inductive EmitEvent
  | connect (accounts : List String) (chainId : ℕ)
  | change (accounts : Option (List String)) (chainId : Option ℕ)
  | disconnect
  deriving DecidableEq, Repr

/-- A chain entry of the wagmi config (`config.chains`); only `id` is
consulted by the connector. -/
structure Chain where
  id : ℕ
  deriving DecidableEq, Repr

/-- The wagmi config surface the connector consumes. -/
structure Config where
  chains : List Chain
  deriving DecidableEq, Repr

/-- Constructor parameters of `metaKeep(parameters)`:
`appId` and `user` are both optional at the type level. -/
structure MetaKeepParameters where
  appId : Option String
  user : Option String
  deriving DecidableEq, Repr

/-- Oracle for the external calls an operation may perform:
* `getAddressResult` — outcome of `signer.getAddress()`;
* `signerChainId` — value of `signer.getChainId()` (modelled as always
  succeeding; no claim depends on its failure);
* `switchSendResult` — combined outcome of
  `provider.send('wallet_switchEthereumChain', …)` awaited together with
  the confirming `change` event (the event is assumed delivered; an
  indefinitely hanging await is not representable and not claimed);
* `emitterConnectListeners` — `config.emitter.listenerCount('connect')`;
* `storageGetFails` — whether `config.storage?.getItem` rejects. -/
structure Env where
  getAddressResult : Except RpcErr String
  signerChainId : ℕ
  switchSendResult : Except RpcErr Unit
  emitterConnectListeners : ℕ
  storageGetFails : Bool
  deriving Repr

/-- The adapter's entire mutable footprint.
`provider`/`providerPromiseStarted` model the two closure variables (the
only assignment to `providerPromise` is `initProvider()`, whose body is
empty, so the promise always resolves to no provider — we record only
whether it has been started).  `initProviderCalls` counts invocations of
`getProvider`'s local `initProvider`; `sdkConstructions` counts
`new MetaKeep(...)` constructions inside `connect` (it also serves as the
id of the next provider handle).  `listeners` is the provider's listener
list in registration order; `bindCtr` feeds fresh `.bind` identities;
`storageDisconnected` is the wagmi-storage key `metaKeep.disconnected`;
`emits` is the log of emitter emissions; `rpcSends` the log of
`provider.send` RPC requests (method name, chain id argument);
`lsCachedAddress`/`lsCachedChainId` are the two `localStorage` keys cleared
by `onDisconnect`. -/
structure AState where
  provider : Option ℕ
  providerPromiseStarted : Bool
  initProviderCalls : ℕ
  sdkConstructions : ℕ
  listeners : List (PEvent × Listener)
  bindCtr : ℕ
  storageDisconnected : Option Bool
  emits : List EmitEvent
  rpcSends : List (String × ℕ)
  lsCachedAddress : Option String
  lsCachedChainId : Option String
  deriving DecidableEq, Repr

/-- The state of a freshly created adapter (both closure variables
undefined, nothing registered, nothing persisted). -/
def initAState : AState :=
  { provider := none
    providerPromiseStarted := false
    initProviderCalls := 0
    sdkConstructions := 0
    listeners := []
    bindCtr := 0
    storageDisconnected := none
    emits := []
    rpcSends := []
    lsCachedAddress := none
    lsCachedChainId := none }

/-- viem's `getAddress` checksum normalization.  The external library is out
of the spec's scope; the adapter treats it as an opaque address-to-address
map, which we model as the identity on address strings. -/
def getAddress (x : String) : String := x

/-- One evaluation of `this.m.bind(this)`: yields a listener with a fresh
identity stamp and advances the stamp counter. -/
def mkBind (m : MethodRef) (s : AState) : Listener × AState :=
  (Listener.bound m s.bindCtr, { s with bindCtr := s.bindCtr + 1 })

/-- ethers `removeListener` semantics: drop the first registration whose
event name and function identity both match; keep everything else. -/
def removeFirstListener (e : PEvent) (l : Listener) :
    List (PEvent × Listener) → List (PEvent × Listener)
  | [] => []
  | p :: ps => if p = (e, l) then ps else p :: removeFirstListener e l ps

/-- `provider.on(e, l)`: append a registration. -/
def provOn (e : PEvent) (l : Listener) (s : AState) : AState :=
  { s with listeners := s.listeners ++ [(e, l)] }

/-- `provider.removeListener(e, l)`. -/
def provRemove (e : PEvent) (l : Listener) (s : AState) : AState :=
  { s with listeners := removeFirstListener e l s.listeners }

/-- `getProvider()`.  When `provider` is unset it starts `initProvider()`
at most once (guarded by the `providerPromise` check, which is decided
synchronously before the first await), awaits the shared promise — whose
resolved value is no provider, since `initProvider`'s body is empty — and
returns the still-absent `provider`. -/
def getProvider (s : AState) : Option ℕ × AState :=
  match s.provider with
  | some p => (some p, s)
  | none =>
      let s1 :=
        if s.providerPromiseStarted then s
        else { s with providerPromiseStarted := true
                      initProviderCalls := s.initProviderCalls + 1 }
      (none, s1)

/-- The synchronous segment of one `getProvider()` call, up to its first
await: the `provider` check and the check-and-assign of `providerPromise`.
Under event-loop semantics this segment is atomic; N concurrent calls run
N such segments before any of them resumes from the await. -/
def getProviderStart (s : AState) : AState :=
  match s.provider with
  | some _ => s
  | none =>
      if s.providerPromiseStarted then s
      else { s with providerPromiseStarted := true
                    initProviderCalls := s.initProviderCalls + 1 }

/-- The resumption of one `getProvider()` call after its await: the caller
receives the shared promise's resolved value (no provider) — or, had it
seen a cached provider in its synchronous segment, that provider. -/
def getProviderResume (s : AState) : Option ℕ × AState :=
  match s.provider with
  | some p => (some p, s)
  | none => (none, s)

/-- Resume `n` suspended `getProvider()` callers in sequence, collecting
each caller's result. -/
def runResumes : ℕ → AState → List (Option ℕ) × AState
  | 0, s => ([], s)
  | n + 1, s =>
      let (v, s1) := getProviderResume s
      let (vs, s2) := runResumes n s1
      (v :: vs, s2)

/-- N concurrent `getProvider()` calls issued before the first one
resolves: all N synchronous segments run, then all N resumptions. -/
def concurrentGetProvider (n : ℕ) (s : AState) : List (Option ℕ) × AState :=
  runResumes n (getProviderStart^[n] s)

/-- `setup()`: acquire the provider and, only if one exists, register the
pre-connect `connect` listener (a fresh bound function). -/
def setup (s : AState) : AState :=
  match getProvider s with
  | (none, s1) => s1
  | (some _, s1) =>
      let (b, s2) := mkBind MethodRef.onConnect s1
      provOn PEvent.connect b s2

/-- `getAccounts()`: dereference the provider for a signer (throws a
`TypeError` when the provider is absent), request the signer's address and
return it checksummed as a one-element list. -/
def getAccounts (env : Env) (s : AState) : Except JsError (List String) × AState :=
  match getProvider s with
  | (none, s1) =>
      (Except.error (JsError.typeError "getSigner of undefined"), s1)
  | (some _, s1) =>
      match env.getAddressResult with
      | Except.ok a => (Except.ok [getAddress a], s1)
      | Except.error e => (Except.error (JsError.rpcError e), s1)

/-- `getChainId()`: dereference the provider for a signer (throws a
`TypeError` when the provider is absent) and return the signer's numeric
chain id. -/
def getChainId (env : Env) (s : AState) : Except JsError ℕ × AState :=
  match getProvider s with
  | (none, s1) =>
      (Except.error (JsError.typeError "getSigner of undefined"), s1)
  | (some _, s1) => (Except.ok env.signerChainId, s1)

/-- `isAuthorized()`: inside one try/catch, read the persisted
disconnection flag (truthy ⇒ `false`), otherwise derive the account list
and report its non-emptiness; any rejection anywhere is caught and turned
into `false`. -/
def isAuthorized (env : Env) (s : AState) : Except JsError Bool × AState :=
  if env.storageGetFails then (Except.ok false, s)
  else if s.storageDisconnected = some true then (Except.ok false, s)
  else
    match getAccounts env s with
    | (Except.ok accts, s1) => (Except.ok (!accts.isEmpty), s1)
    | (Except.error _, s1) => (Except.ok false, s1)

/-- `switchChain({chainId})`: acquire the provider, look the requested id
up in `config.chains` and throw `SwitchChainError(ChainNotConfiguredError)`
when it is absent — before issuing any RPC.  Otherwise send
`wallet_switchEthereumChain` (logged in `rpcSends`) awaited together with
the confirming `change` event; a rejection with code 4001 is re-thrown as
`UserRejectedRequestError`, any other as `SwitchChainError`.  An absent
provider makes `provider.send` throw a `TypeError` inside the try, which
the catch wraps as `SwitchChainError`. -/
def switchChain (chainId : ℕ) (cfg : Config) (env : Env) (s : AState) :
    Except JsError Chain × AState :=
  match getProvider s with
  | (p, s1) =>
      match cfg.chains.find? (fun c => c.id == chainId) with
      | none =>
          (Except.error (JsError.switchChainError JsError.chainNotConfigured), s1)
      | some chain =>
          match p with
          | none =>
              (Except.error
                (JsError.switchChainError (JsError.typeError "send of undefined")), s1)
          | some _ =>
              let s2 := { s1 with
                rpcSends := s1.rpcSends ++ [("wallet_switchEthereumChain", chainId)] }
              match env.switchSendResult with
              | Except.ok _ => (Except.ok chain, s2)
              | Except.error e =>
                  if e.code = 4001 then
                    (Except.error (JsError.userRejectedRequest (JsError.rpcError e)), s2)
                  else
                    (Except.error (JsError.switchChainError (JsError.rpcError e)), s2)

/-- The catch block at the end of `connect`: a rejection with viem's
user-rejection code 4001 is wrapped as `UserRejectedRequestError`, one with
viem's resource-unavailable code -32002 as `ResourceUnavailableRpcError`,
and anything else is re-thrown unchanged. -/
def connectCatch (e : JsError) : JsError :=
  if e.code = some 4001 then JsError.userRejectedRequest e
  else if e.code = some (-32002) then JsError.resourceUnavailableRpc e
  else e

/-- The successful tail of `connect`: clear the persisted disconnection
flag and return the accounts together with the final chain id. -/
def finishConnect (accounts : List String) (chainId : ℕ) (s : AState) :
    Except JsError (List String × ℕ) × AState :=
  (Except.ok (accounts, chainId), { s with storageDisconnected := none })

/-- The body of `connect` from the point where a provider is guaranteed to
be cached: obtain the signer; on reconnection best-effort reuse known
accounts (`getAccounts().catch(() => [])`); otherwise request the signer's
address; swap the listener sets (remove `connect` with a fresh bound
function, register `accountsChanged`/`chainChanged`/`disconnect`); read the
current chain id; when a target `chainId` was passed, is truthy, and
differs, run `switchChain` and fall back to the current id unless the
failure is a user rejection (which propagates to the outer catch); finally
clear the disconnection flag and return.  Rejections inside the try are
routed through `connectCatch`. -/
def connectBody (chainId? : Option ℕ) (isReconnecting : Bool) (cfg : Config)
    (env : Env) (s : AState) : Except JsError (List String × ℕ) × AState :=
  let (accounts0, s1) :=
    if isReconnecting then
      match getAccounts env s with
      | (Except.ok accts, t) => (accts, t)
      | (Except.error _, t) => (([] : List String), t)
    else ([], s)
  let addrRes : Except JsError (List String) :=
    if accounts0.isEmpty then
      match env.getAddressResult with
      | Except.ok a => Except.ok [a]
      | Except.error e => Except.error (JsError.rpcError e)
    else Except.ok accounts0
  match addrRes with
  | Except.error e => (Except.error (connectCatch e), s1)
  | Except.ok accounts =>
      let (b1, s2) := mkBind MethodRef.onConnect s1
      let s3 := provRemove PEvent.connect b1 s2
      let (b2, s4) := mkBind MethodRef.onAccountsChanged s3
      let s5 := provOn PEvent.accountsChanged b2 s4
      let s6 := provOn PEvent.chainChanged (Listener.plain MethodRef.onChainChanged) s5
      let (b3, s7) := mkBind MethodRef.onDisconnect s6
      let s8 := provOn PEvent.disconnect b3 s7
      match getChainId env s8 with
      | (Except.error e, s9) => (Except.error (connectCatch e), s9)
      | (Except.ok cur, s9) =>
          match chainId? with
          | some cid =>
              if cid ≠ 0 ∧ cur ≠ cid then
                match switchChain cid cfg env s9 with
                | (Except.ok chain, s10) => finishConnect accounts chain.id s10
                | (Except.error e, s10) =>
                    if e.code = some 4001 then (Except.error (connectCatch e), s10)
                    else finishConnect accounts cur s10
              else finishConnect accounts cur s9
          | none => finishConnect accounts cur s9

/-- `connect({chainId, isReconnecting})`.  When no provider is cached it
first validates the configuration — a missing `appId` rejects with
`Error('appId not found')` before `new MetaKeep(...)` is reached — then
constructs the SDK client and caches the wrapped provider; with a provider
in hand it proceeds with `connectBody`. -/
def connect (chainId? : Option ℕ) (isReconnecting : Bool)
    (params : MetaKeepParameters) (cfg : Config) (env : Env) (s : AState) :
    Except JsError (List String × ℕ) × AState :=
  match s.provider with
  | none =>
      match params.appId with
      | none => (Except.error (JsError.error "appId not found"), s)
      | some _ =>
          connectBody chainId? isReconnecting cfg env
            { s with provider := some s.sdkConstructions
                     sdkConstructions := s.sdkConstructions + 1 }
  | some _ => connectBody chainId? isReconnecting cfg env s

/-- `disconnect()`: acquire the provider (dereferencing it when absent
throws a `TypeError`), call `removeListener` for the three post-connect
events — each with a *fresh* bound function for the two bound listeners,
and with the stable method reference for `chainChanged` — re-register the
`connect` listener, and persist the disconnection flag. -/
def disconnect (s : AState) : Except JsError Unit × AState :=
  match getProvider s with
  | (none, s1) =>
      (Except.error (JsError.typeError "removeListener of undefined"), s1)
  | (some _, s1) =>
      let (b1, s2) := mkBind MethodRef.onAccountsChanged s1
      let s3 := provRemove PEvent.accountsChanged b1 s2
      let s4 := provRemove PEvent.chainChanged (Listener.plain MethodRef.onChainChanged) s3
      let (b2, s5) := mkBind MethodRef.onDisconnect s4
      let s6 := provRemove PEvent.disconnect b2 s5
      let (b3, s7) := mkBind MethodRef.onConnect s6
      let s8 := provOn PEvent.connect b3 s7
      (Except.ok (), { s8 with storageDisconnected := some true })

/-- `onChainChanged(chain)`: emit a framework `change` event carrying the
normalized numeric chain id. -/
def onChainChanged (chain : ℕ) (s : AState) : AState :=
  { s with emits := s.emits ++ [EmitEvent.change none (some chain)] }

/-- `onConnect(connectInfo)`: re-derive the accounts (a rejection here
rejects the handler); abort silently when empty; otherwise emit framework
`connect` and, if a provider exists, perform the pre-connect → post-connect
listener swap exactly as `connect` does. -/
def onConnect (connectChainId : ℕ) (env : Env) (s : AState) :
    Except JsError Unit × AState :=
  match getAccounts env s with
  | (Except.error e, s1) => (Except.error e, s1)
  | (Except.ok accounts, s1) =>
      if accounts.isEmpty then (Except.ok (), s1)
      else
        let s2 := { s1 with
          emits := s1.emits ++ [EmitEvent.connect accounts connectChainId] }
        match getProvider s2 with
        | (none, s3) => (Except.ok (), s3)
        | (some _, s3) =>
            let (b1, s4) := mkBind MethodRef.onConnect s3
            let s5 := provRemove PEvent.connect b1 s4
            let (b2, s6) := mkBind MethodRef.onAccountsChanged s5
            let s7 := provOn PEvent.accountsChanged b2 s6
            let s8 := provOn PEvent.chainChanged (Listener.plain MethodRef.onChainChanged) s7
            let (b3, s9) := mkBind MethodRef.onDisconnect s8
            (Except.ok (), provOn PEvent.disconnect b3 s9)

/-- The unconditional tail of `onDisconnect` (after the 1013 special case
has fallen through): clear the two `localStorage` shim keys, emit framework
`disconnect`, then swap the listener sets back — dereferencing the provider
here throws a `TypeError` *after* the emission when it is absent. -/
def onDisconnectTail (p : Option ℕ) (s : AState) : Except JsError Unit × AState :=
  let s1 := { s with lsCachedAddress := none, lsCachedChainId := none }
  let s2 := { s1 with emits := s1.emits ++ [EmitEvent.disconnect] }
  match p with
  | none => (Except.error (JsError.typeError "removeListener of undefined"), s2)
  | some _ =>
      let (b1, s3) := mkBind MethodRef.onAccountsChanged s2
      let s4 := provRemove PEvent.accountsChanged b1 s3
      let s5 := provRemove PEvent.chainChanged (Listener.plain MethodRef.onChainChanged) s4
      let (b2, s6) := mkBind MethodRef.onDisconnect s5
      let s7 := provRemove PEvent.disconnect b2 s6
      let (b3, s8) := mkBind MethodRef.onConnect s7
      (Except.ok (), provOn PEvent.connect b3 s8)

/-- `onDisconnect(error)`: when called with an error of code 1013 while a
provider exists and still yields a non-empty account list, treat the
disconnect as spurious and return without any effect (a rejection of the
account probe rejects the handler itself — there is no catch); otherwise
run the unconditional tail. -/
def onDisconnect (error : Option RpcErr) (env : Env) (s : AState) :
    Except JsError Unit × AState :=
  match getProvider s with
  | (p, s1) =>
      match error with
      | some e =>
          if e.code = 1013 then
            match p with
            | some _ =>
                match getAccounts env s1 with
                | (Except.ok accts, s2) =>
                    if !accts.isEmpty then (Except.ok (), s2)
                    else onDisconnectTail p s2
                | (Except.error e2, s2) => (Except.error e2, s2)
            | none => onDisconnectTail p s1
          else onDisconnectTail p s1
      | none => onDisconnectTail p s1

/-- `onAccountsChanged(accounts)`: an empty list delegates to
`onDisconnect()` (fire-and-forget, so its rejection is not observed by this
handler); with downstream `connect` listeners present, re-derive the chain
id, run `onConnect` (also fire-and-forget) and clear the disconnection
flag; otherwise emit a `change` event carrying the checksummed accounts. -/
def onAccountsChanged (accounts : List String) (env : Env) (s : AState) :
    Except JsError Unit × AState :=
  if accounts.isEmpty then
    (Except.ok (), (onDisconnect none env s).2)
  else if env.emitterConnectListeners ≠ 0 then
    match getChainId env s with
    | (Except.error e, s1) => (Except.error e, s1)
    | (Except.ok cid, s1) =>
        let s2 := (onConnect cid env s1).2
        (Except.ok (), { s2 with storageDisconnected := none })
  else
    (Except.ok (), { s with
      emits := s.emits ++ [EmitEvent.change (some (accounts.map getAddress)) none] })

/-! ## Concrete fixtures -/

/-- Environment oracle for concrete runs: the signer yields address `0xabc`
on chain 80002 and every external call succeeds. -/
def env0 : Env :=
  { getAddressResult := Except.ok "0xabc"
    signerChainId := 80002
    switchSendResult := Except.ok ()
    emitterConnectListeners := 0
    storageGetFails := false }

/-- Constructor parameters with an application id configured. -/
def params0 : MetaKeepParameters := { appId := some "demo-app", user := none }

/-- The wagmi config of the demo app: the single chain 80002. -/
def cfg0 : Config := { chains := [⟨80002⟩] }

/-- First `connect` on a fresh adapter (after `setup`, which registers
nothing because no provider exists yet). -/
def runA : Except JsError (List String × ℕ) × AState :=
  connect none false params0 cfg0 env0 (setup initAState)

/-- State after the first successful `connect`. -/
def stateA : AState := runA.2

/-- `disconnect` after the first `connect`. -/
def runB : Except JsError Unit × AState := disconnect stateA

/-- State after the successful `disconnect`. -/
def stateB : AState := runB.2

/-- Second `connect`, after the `disconnect`. -/
def runC : Except JsError (List String × ℕ) × AState :=
  connect none false params0 cfg0 env0 stateB

/-- State after the second successful `connect`. -/
def stateC : AState := runC.2

/-! ## Helper lemmas -/

/-- `getProvider` on a state without a cached provider returns no provider
and only (possibly) marks the shared promise as started. -/
theorem getProvider_of_absent (s : AState) (hp : s.provider = none) :
    getProvider s =
      (none, if s.providerPromiseStarted then s
        else { s with providerPromiseStarted := true
                      initProviderCalls := s.initProviderCalls + 1 }) := by
  unfold getProvider
  rw [hp]

/-- The fresh adapter state after one synchronous `getProvider` segment:
the shared promise is started and `initProvider` has run once. -/
def startedAState : AState :=
  { initAState with providerPromiseStarted := true, initProviderCalls := 1 }

/-- The first synchronous `getProvider` segment on a fresh adapter starts
the single shared promise. -/
theorem getProviderStart_init : getProviderStart initAState = startedAState := rfl

/-- Once the shared promise is started, further synchronous segments change
nothing (the deduplication check). -/
theorem getProviderStart_fix : getProviderStart startedAState = startedAState := rfl

/-- Any positive number of synchronous `getProvider` segments from the
fresh state lands in `startedAState`. -/
theorem iterate_getProviderStart (n : ℕ) (h : 1 ≤ n) :
    getProviderStart^[n] initAState = startedAState := by
  obtain ⟨m, rfl⟩ : ∃ m, n = m + 1 := ⟨n - 1, by omega⟩
  rw [Function.iterate_succ_apply, getProviderStart_init]
  exact Function.iterate_fixed getProviderStart_fix m

/-- One suspended caller resuming from `startedAState` receives the shared
promise's resolved value (no provider) and leaves the state unchanged. -/
theorem getProviderResume_started :
    getProviderResume startedAState = (none, startedAState) := rfl

/-- Resuming any number of suspended callers from `startedAState` hands
every caller the shared promise's resolved value (no provider) and leaves
the state unchanged. -/
theorem runResumes_started (n : ℕ) :
    runResumes n startedAState = (List.replicate n none, startedAState) := by
  induction n with
  | zero => rfl
  | succ m ih => simp [runResumes, getProviderResume_started, ih, List.replicate]

/-! ## Claim theorems -/

/-- C1: the claim states that after every successful `connect` the provider
listener set is exactly `{accountsChanged, chainChanged, disconnect}` and
never includes `connect`, and that the pre- and post-connect sets are never
both attached.  The code violates this: in the concrete run
`setup; connect; disconnect; connect` the second `connect` succeeds, yet
the `connect` listener registered by `disconnect` is still attached
alongside the post-connect listeners, because `removeListener` is passed a
fresh `this.onConnect.bind(this)` function that is never identical to the
registered one. -/
theorem connect_leaves_connect_listener_attached :
    runC.1 = Except.ok (["0xabc"], 80002)
    ∧ stateC.listeners.any (fun q => q.1 == PEvent.connect) = true
    ∧ stateC.listeners.any (fun q => q.1 == PEvent.accountsChanged) = true
    ∧ stateC.listeners.any (fun q => q.1 == PEvent.disconnect) = true := by
  refine ⟨rfl, rfl, rfl, rfl⟩

/-- C2: N concurrent `getProvider()` invocations issued before the first
one resolves start exactly one `initProvider` attempt, and every caller
receives the same resolved value (the still-absent provider of the single
shared promise). -/
theorem getProvider_concurrent_dedup (n : ℕ) (h : 1 ≤ n) :
    (concurrentGetProvider n initAState).1 = List.replicate n none
    ∧ (concurrentGetProvider n initAState).2.initProviderCalls = 1 := by
  unfold concurrentGetProvider
  rw [iterate_getProviderStart n h, runResumes_started]
  exact ⟨rfl, rfl⟩

/-- Witness for C2 at N = 3. -/
theorem getProvider_concurrent_dedup_witness :
    (concurrentGetProvider 3 initAState).1 = List.replicate 3 none
    ∧ (concurrentGetProvider 3 initAState).2.initProviderCalls = 1 :=
  getProvider_concurrent_dedup 3 (by decide)

/-- C3: `connect` on an adapter with no cached provider and no `appId`
rejects with the configuration error `Error('appId not found')` and leaves
the state completely unchanged — in particular `sdkConstructions` is not
incremented, so no external SDK client is constructed and no SDK
interaction happens. -/
theorem connect_missing_appId (chainId? : Option ℕ) (isReconnecting : Bool)
    (user : Option String) (cfg : Config) (env : Env) (s : AState)
    (hp : s.provider = none) :
    connect chainId? isReconnecting { appId := none, user := user } cfg env s
      = (Except.error (JsError.error "appId not found"), s) := by
  unfold connect
  rw [hp]

/-- Witness for C3 on the fresh adapter. -/
theorem connect_missing_appId_witness :
    connect none false { appId := none, user := none } cfg0 env0 initAState
      = (Except.error (JsError.error "appId not found"), initAState) :=
  connect_missing_appId none false none cfg0 env0 initAState rfl

/-- C4: the claim states that after every successful `disconnect` the
listener set is exactly `{connect}`, the disconnection flag is persisted,
and the provider handle is kept.  The code persists the flag and keeps the
provider, but the listener set after the concrete run `setup; connect;
disconnect` is `[accountsChanged, disconnect, connect]`: the bound
`accountsChanged`/`disconnect` listeners survive because `removeListener`
is passed fresh `.bind(this)` functions (only the unbound `chainChanged`
listener is actually removed). -/
theorem disconnect_leaves_stale_listeners :
    runB.1 = Except.ok ()
    ∧ stateB.storageDisconnected = some true
    ∧ stateB.provider = some 0
    ∧ ¬ stateB.listeners.map Prod.fst = [PEvent.connect]
    ∧ stateB.listeners.any (fun q => q.1 == PEvent.accountsChanged) = true := by
  refine ⟨rfl, rfl, rfl, by decide, rfl⟩

/-- C5: `isAuthorized` never rejects; it returns `false` whenever the
persisted disconnection flag is truthy (regardless of account state),
`false` whenever the storage read or the account derivation fails, and
otherwise reports whether the derived account list is non-empty. -/
theorem isAuthorized_safe (env : Env) (s : AState) :
    (∃ b : Bool, (isAuthorized env s).1 = Except.ok b)
    ∧ (s.storageDisconnected = some true → (isAuthorized env s).1 = Except.ok false)
    ∧ (env.storageGetFails = true → (isAuthorized env s).1 = Except.ok false)
    ∧ (∀ e : JsError, (getAccounts env s).1 = Except.error e →
        (isAuthorized env s).1 = Except.ok false)
    ∧ (∀ l : List String, env.storageGetFails = false →
        s.storageDisconnected ≠ some true →
        (getAccounts env s).1 = Except.ok l →
        (isAuthorized env s).1 = Except.ok (!l.isEmpty)) := by
  by_cases hf : env.storageGetFails
  · simp [isAuthorized, hf]
  · by_cases hd : s.storageDisconnected = some true
    · simp [isAuthorized, hf, hd]
    · rcases hga : getAccounts env s with ⟨r, t⟩
      cases r with
      | ok l =>
          simp [isAuthorized, hf, hd, hga]
          exact eq_or_ne l []
      | error e => simp [isAuthorized, hf, hd, hga]

/-- Witness for C5: with the disconnection flag persisted, `isAuthorized`
returns `false`. -/
theorem isAuthorized_safe_witness :
    (isAuthorized env0 { initAState with storageDisconnected := some true }).1
      = Except.ok false :=
  (isAuthorized_safe env0 { initAState with storageDisconnected := some true }).2.1 rfl

/-- C6: `onAccountsChanged([])` delegates to `onDisconnect()` with no
argument, so both runs produce the same end state — in particular the same
emitted framework events and the same provider listener set. -/
theorem onAccountsChanged_empty_is_onDisconnect (env : Env) (s : AState) :
    (onAccountsChanged [] env s).2 = (onDisconnect none env s).2
    ∧ (onAccountsChanged [] env s).2.emits = (onDisconnect none env s).2.emits
    ∧ (onAccountsChanged [] env s).2.listeners = (onDisconnect none env s).2.listeners :=
  ⟨rfl, rfl, rfl⟩

/-- C7: `switchChain` with a chain id that no configured chain carries
rejects with `SwitchChainError(ChainNotConfiguredError)` and issues no RPC
request to the provider. -/
theorem switchChain_not_configured (chainId : ℕ) (cfg : Config) (env : Env)
    (s : AState) (h : ∀ c ∈ cfg.chains, c.id ≠ chainId) :
    (switchChain chainId cfg env s).1
      = Except.error (JsError.switchChainError JsError.chainNotConfigured)
    ∧ (switchChain chainId cfg env s).2.rpcSends = s.rpcSends := by
  have hf : cfg.chains.find? (fun c => c.id == chainId) = none := by
    rw [List.find?_eq_none]
    intro c hc
    simpa using h c hc
  have hrpc : (getProvider s).2.rpcSends = s.rpcSends := by
    unfold getProvider
    rcases s.provider with _ | p
    · dsimp only
      split <;> rfl
    · rfl
  rcases hgp : getProvider s with ⟨pv, s1⟩
  unfold switchChain
  rw [hgp, hf]
  rw [hgp] at hrpc
  exact ⟨rfl, hrpc⟩

/-- Witness for C7: requesting chain 137 with configured chains
`[{id: 80002}]` on the fresh adapter. -/
theorem switchChain_not_configured_witness :
    (switchChain 137 cfg0 env0 initAState).1
      = Except.error (JsError.switchChainError JsError.chainNotConfigured)
    ∧ (switchChain 137 cfg0 env0 initAState).2.rpcSends = initAState.rpcSends :=
  switchChain_not_configured 137 cfg0 env0 initAState (by decide)

/-- C8: `onDisconnect` called with an error of code 1013 while a provider
exists and the signer still yields an account returns without any effect:
nothing is emitted, the listener set (and the whole state) is unchanged. -/
theorem onDisconnect_1013_spurious (e : RpcErr) (env : Env) (s : AState)
    (p : ℕ) (a : String) (hp : s.provider = some p) (hc : e.code = 1013)
    (ha : env.getAddressResult = Except.ok a) :
    onDisconnect (some e) env s = (Except.ok (), s) := by
  simp [onDisconnect, getAccounts, getProvider, hp, hc, ha, getAddress]

/-- Witness for C8 on a state with a cached provider. -/
theorem onDisconnect_1013_spurious_witness :
    onDisconnect (some ⟨1013⟩) env0 { initAState with provider := some 0 }
      = (Except.ok (), { initAState with provider := some 0 }) :=
  onDisconnect_1013_spurious ⟨1013⟩ env0 { initAState with provider := some 0 }
    0 "0xabc" rfl rfl rfl

/-- C9: `getProvider` on an adapter whose provider was never populated by
`connect` resolves to no provider and does not populate the cached slot:
its own initializer is a no-op placeholder. -/
theorem getProvider_placeholder_absent (s : AState) (hp : s.provider = none) :
    (getProvider s).1 = none ∧ (getProvider s).2.provider = none := by
  rw [getProvider_of_absent s hp]
  refine ⟨rfl, ?_⟩
  dsimp only
  split
  · exact hp
  · exact hp

/-- Witness for C9 on the fresh adapter. -/
theorem getProvider_placeholder_absent_witness :
    (getProvider initAState).1 = none
    ∧ (getProvider initAState).2.provider = none :=
  getProvider_placeholder_absent initAState rfl

/-- C10: on an adapter whose provider was never populated by `connect`,
`disconnect`, `getAccounts` and `getChainId` all dereference the absent
provider returned by `getProvider` and reject with a raw `TypeError` — an
unclassified runtime error, not one of the connector's error kinds. -/
theorem absent_provider_ops_throw (env : Env) (s : AState)
    (hp : s.provider = none) :
    (∃ m, (disconnect s).1 = Except.error (JsError.typeError m))
    ∧ (∃ m, (getAccounts env s).1 = Except.error (JsError.typeError m))
    ∧ (∃ m, (getChainId env s).1 = Except.error (JsError.typeError m)) := by
  refine ⟨⟨"removeListener of undefined", ?_⟩,
    ⟨"getSigner of undefined", ?_⟩, ⟨"getSigner of undefined", ?_⟩⟩ <;>
    simp [disconnect, getAccounts, getChainId, getProvider_of_absent s hp]

/-- Witness for C10 on the fresh adapter. -/
theorem absent_provider_ops_throw_witness :
    (∃ m, (disconnect initAState).1 = Except.error (JsError.typeError m))
    ∧ (∃ m, (getAccounts env0 initAState).1 = Except.error (JsError.typeError m))
    ∧ (∃ m, (getChainId env0 initAState).1 = Except.error (JsError.typeError m)) :=
  absent_provider_ops_throw env0 initAState rfl

end MetaKeepConn
